import Mathlib

/-!
Shallow embedding of the document-load execution pipeline
(`MainWindow.openFileInWindow` and its helper `_unsafeCaller`) of
`src/veusz/windows/mainwindow.py`.

The pipeline reads a script file, compiles it with `utils.compileChecked`
(retrying with `ignoresecurity=True` after the user accepts a whole-file
security prompt), builds an execution environment in which safe commands
are bound as-is and unsafe commands are wrapped by `_unsafeCaller`,
redirects `sys.stdout`/`sys.stderr` to the console, wipes the document,
suspends its updates, executes the compiled script, and on each exit path
restores the streams.

Python-side effects are modelled by explicit state passing: the document,
the global stream variables, the error dialogs shown, and the prompt
counters are all fields of explicit records.  User responses to modal
prompts are inputs: a list of answers for the whole-file security prompts
and an oracle `Nat → Bool` indexed by prompt number for the per-command
unsafe prompts (each prompt blocks until answered, so every shown prompt
has an answer).  `compileChecked` lives outside this file's source, so it
is abstracted as a function from the `ignoresecurity` flag to an outcome.
-/

namespace Veusz

/-- A command invocation occurring in a compiled document script.
`safeCmd eff` is a call to a command of `interface.safe_commands`
(bound as-is in the environment), `unsafeCmd eff` a call to a command of
`interface.unsafe_commands` (bound wrapped by `_unsafeCaller`), and
`raiseCmd msg` a statement whose execution raises an exception carrying
`msg`.  `eff` abstractly identifies the document mutation the underlying
command performs. -/
inductive Cmd where
  | safeCmd (eff : Nat)
  | unsafeCmd (eff : Nat)
  | raiseCmd (msg : Nat)
deriving Repr, DecidableEq

/-- Modelled from the spec: the document object lives in the external
`document` module (not under `src/`).  The spec's operation surface is
`wipe`, `suspendUpdates`, `enableUpdates`, `setModified`, `clearHistory`,
plus the in-place mutations commands perform; the model keeps an abstract
content list, the update-suspension flag, the modified flag and the undo
history. -/
structure Document where
  data : List Nat
  updatesSuspended : Bool
  modified : Bool
  history : List Nat
deriving Repr, DecidableEq

/-- Modelled from the spec: `document.wipe()` clears the target document's
content. -/
def Document.wipe (d : Document) : Document :=
  { d with data := [] }

/-- Modelled from the spec: `document.suspendUpdates()` suspends change
notifications. -/
def Document.suspendUpdates (d : Document) : Document :=
  { d with updatesSuspended := true }

/-- Modelled from the spec: `document.enableUpdates()` re-enables change
notifications. -/
def Document.enableUpdates (d : Document) : Document :=
  { d with updatesSuspended := false }

/-- Modelled from the spec: `document.setModified(b)` sets the modified
flag. -/
def Document.setModified (d : Document) (b : Bool) : Document :=
  { d with modified := b }

/-- Modelled from the spec: `document.clearHistory()` empties the undo
history. -/
def Document.clearHistory (d : Document) : Document :=
  { d with history := [] }

/-- Modelled from the spec: an executed command mutates the document in
place; the mutation is recorded by appending the command's effect to the
content, with the history extended (the undo engine is external). -/
def Document.applyEffect (d : Document) (eff : Nat) : Document :=
  { d with data := d.data ++ [eff], history := d.history ++ [eff] }

/-- Modelled from the spec: `setupDefaultDoc` (via the external
`document.makeDefaultDoc`) resets the document to the default empty
state. -/
def defaultDocument : Document :=
  { data := [], updatesSuspended := false, modified := false, history := [] }

/-- Outcome of one call to `utils.compileChecked(script, ...,
ignoresecurity=u)`.  `compileChecked` is external to this file, so a
script is abstracted as the function `Bool → CompileOutcome` giving, for
each value of the `ignoresecurity` flag, whether compilation succeeds
(with the list of command invocations the compiled code performs), raises
`utils.SafeEvalException`, or raises some other exception. -/
inductive CompileOutcome where
  | ok (cmds : List Cmd)
  | securityViolation
  | otherError (msg : Nat)
deriving Repr, DecidableEq

/-- Result of the `while True` compile loop of `openFileInWindow`.
`compiled cmds relaxed`: compilation succeeded, `relaxed` being the final
value of the local `unsafe` flag.  `declined`: the user answered "Stop
loading" to the whole-file security prompt.  `failed msg`: a
non-security compile error.  `blocked`: the modelled list of prompt
answers ran out while violations kept recurring (the real loop would
still be waiting on a modal prompt, or looping). -/
inductive CompileResult where
  | compiled (cmds : List Cmd) (relaxed : Bool)
  | declined
  | failed (msg : Nat)
  | blocked
deriving Repr, DecidableEq

/-- The compile loop of `openFileInWindow`: repeatedly call
`compileChecked` with the current `unsafe` flag; on
`SafeEvalException` show the `_unsafeCmdMsgBox` prompt and either abort
(answer `false`, "Stop loading") or set `unsafe = True` and retry
(answer `true`, "Continue anyway"); on success or any other exception
stop.  Returns the result together with the total number of
`compileChecked` calls made, `attempts` being the count so far.  The
recursion is on the remaining prompt answers (each loop iteration past
the first consumes one answer), so the compile-outcome dispatch appears
in both list cases; both transcribe the same loop body. -/
def compileLoop (script : Bool → CompileOutcome) :
    List Bool → Bool → Nat → CompileResult × Nat
  | [], u, attempts =>
    match script u with
    | .ok cmds => (.compiled cmds u, attempts + 1)
    | .otherError msg => (.failed msg, attempts + 1)
    | .securityViolation => (.blocked, attempts + 1)
  | a :: rest, u, attempts =>
    match script u with
    | .ok cmds => (.compiled cmds u, attempts + 1)
    | .otherError msg => (.failed msg, attempts + 1)
    | .securityViolation =>
      if a then compileLoop script rest true (attempts + 1)
      else (.declined, attempts + 1)

/-- Mutable state visible to the script-execution phase: the document,
the closure cell `safenow = [unsafe]` consulted by `_unsafeCaller`, and
the number of per-command unsafe prompts shown so far (also the index of
the next answer in the prompt oracle). -/
structure ExecState where
  doc : Document
  safenow : Bool
  promptIdx : Nat
deriving Repr, DecidableEq

/-- One invocation of a wrapped unsafe command
(`_unsafeCaller(func)`'s inner `wrapped`): if `safenow[0]` is false,
show the `_unsafeVeuszCmdMsgBox` prompt; on "Ignore command" return
(skipping the call, `safenow` untouched); otherwise fall through, set
`safenow[0] = True`, and call `func` — whose return value is discarded,
so `wrapped` always returns `None` (here `none`). -/
def wrappedCall (oracle : Nat → Bool) (eff : Nat) (s : ExecState) :
    ExecState × Option Nat :=
  if s.safenow then
    ({ s with safenow := true, doc := s.doc.applyEffect eff }, none)
  else if oracle s.promptIdx then
    ({ s with
        promptIdx := s.promptIdx + 1
        safenow := true
        doc := s.doc.applyEffect eff }, none)
  else
    ({ s with promptIdx := s.promptIdx + 1 }, none)

/-- Running the compiled script (`cexec(compiled, env)`): the commands
execute in order; a safe command calls the interface directly, an unsafe
command goes through `wrappedCall`, and `raiseCmd` raises — `.error`
carries the exception message and the state at the raise (the partial
document the script produced). -/
def execCmds (oracle : Nat → Bool) :
    List Cmd → ExecState → Except (Nat × ExecState) ExecState
  | [], s => .ok s
  | c :: rest, s =>
    match c with
    | .safeCmd eff => execCmds oracle rest { s with doc := s.doc.applyEffect eff }
    | .unsafeCmd eff => execCmds oracle rest (wrappedCall oracle eff s).1
    | .raiseCmd msg => .error (msg, s)

/-- The state an execution run ends in, whether it returned or raised. -/
def finalState : Except (Nat × ExecState) ExecState → ExecState
  | .error (_, s) => s
  | .ok s => s

/-- How `openFileInWindow` returned. -/
inductive LoadResult where
  | readError
  | compileFailed (msg : Nat)
  | declinedAbort
  | blockedPrompt
  | execError (msg : Nat)
  | success
deriving Repr, DecidableEq

/-- Everything `openFileInWindow` needs from the outside world: whether
`open(filename).read()` succeeds, the behaviour of `compileChecked` on
this script text, `setting.transient_settings['unsafe_mode']`, and the
user's answers to the two kinds of modal prompt. -/
structure LoadInput where
  fileReadOk : Bool
  script : Bool → CompileOutcome
  globalUnsafeMode : Bool
  wholeAnswers : List Bool
  cmdOracle : Nat → Bool

/-- The pre-load global state: the window's document and the current
values of `sys.stdout` / `sys.stderr` (stream objects abstracted as
numbers), plus the console capture streams `self.console.con_stdout` /
`con_stderr` redirection targets. -/
structure GlobalState where
  doc : Document
  stdoutV : Nat
  stderrV : Nat
  conStdout : Nat
  conStderr : Nat
deriving Repr, DecidableEq

/-- The observable outcome of one `openFileInWindow` call: the result
the final document, the final `sys.stdout`/`sys.stderr`, the errors
reported through `errordialog` (`ErrorLoadingDialog`), whether the
read-failure `QMessageBox.critical` was shown, whether
`setupDefaultDoc` was performed, how many times `compileChecked` was
called, and how many per-command unsafe prompts were shown. -/
structure LoadOutput where
  result : LoadResult
  doc : Document
  stdoutV : Nat
  stderrV : Nat
  reportedErrors : List Nat
  readErrorShown : Bool
  setupDefaultCalled : Bool
  compileAttempts : Nat
  cmdPromptsShown : Nat
deriving Repr, DecidableEq

/-- `MainWindow.openFileInWindow`, transcribed branch by branch.

* Read failure: show `QMessageBox.critical`, call `setupDefaultDoc`
  return — before any compilation.
* Compile loop (`compileLoop`): on `declined` just `return` (nothing
  else happens); on a non-security error, `errordialog(e)` then return;
  on success continue with the compiled commands and the final `unsafe`
  flag.
* Execution: save `stdout, stderr = sys.stdout, sys.stderr`, redirect
  both to the console streams, wipe the document, suspend its updates
  seed `safenow = [unsafe]`, run the script.
  On an exception: restore both streams, `enableUpdates`
  `errordialog(e)`, return.  On success: restore both streams
  `enableUpdates`, `setModified(False)`, `clearHistory`. -/
def load (inp : LoadInput) (g : GlobalState) : LoadOutput :=
  if inp.fileReadOk then
    match compileLoop inp.script inp.wholeAnswers inp.globalUnsafeMode 0 with
    | (.declined, n) =>
      { result := .declinedAbort, doc := g.doc
        stdoutV := g.stdoutV, stderrV := g.stderrV
        reportedErrors := [], readErrorShown := false
        setupDefaultCalled := false, compileAttempts := n
        cmdPromptsShown := 0 }
    | (.failed msg, n) =>
      { result := .compileFailed msg, doc := g.doc
        stdoutV := g.stdoutV, stderrV := g.stderrV
        reportedErrors := [msg], readErrorShown := false
        setupDefaultCalled := false, compileAttempts := n
        cmdPromptsShown := 0 }
    | (.blocked, n) =>
      { result := .blockedPrompt, doc := g.doc
        stdoutV := g.stdoutV, stderrV := g.stderrV
        reportedErrors := [], readErrorShown := false
        setupDefaultCalled := false, compileAttempts := n
        cmdPromptsShown := 0 }
    | (.compiled cmds relaxed, n) =>
      -- stdout, stderr = sys.stdout, sys.stderr; redirect both to the
      -- console streams; self.document.wipe();
      -- self.document.suspendUpdates(); safenow = [unsafe]; then
      -- cexec(compiled, env).  On both exit paths sys.stdout and
      -- sys.stderr are assigned back the saved values.
      match execCmds inp.cmdOracle cmds
          { doc := (g.doc.wipe).suspendUpdates, safenow := relaxed
            promptIdx := 0 } with
      | .error (msg, st) =>
        { result := .execError msg, doc := st.doc.enableUpdates
          stdoutV := g.stdoutV, stderrV := g.stderrV
          reportedErrors := [msg], readErrorShown := false
          setupDefaultCalled := false, compileAttempts := n
          cmdPromptsShown := st.promptIdx }
      | .ok st =>
        { result := .success
          doc := ((st.doc.enableUpdates).setModified false).clearHistory
          stdoutV := g.stdoutV, stderrV := g.stderrV
          reportedErrors := [], readErrorShown := false
          setupDefaultCalled := false, compileAttempts := n
          cmdPromptsShown := st.promptIdx }
  else
    { result := .readError, doc := defaultDocument
      stdoutV := g.stdoutV, stderrV := g.stderrV
      reportedErrors := [], readErrorShown := true
      setupDefaultCalled := true, compileAttempts := 0
      cmdPromptsShown := 0 }

/-!  Supporting lemmas shared between claims. -/

/-- Once `safenow[0]` is true, running any list of commands keeps it true
and shows no per-command prompt (the prompt index is unchanged), whether
execution returns or raises. -/
lemma execCmds_trusted (oracle : Nat → Bool) (cmds : List Cmd) (s : ExecState)
    (h : s.safenow = true) :
    (finalState (execCmds oracle cmds s)).safenow = true ∧
    (finalState (execCmds oracle cmds s)).promptIdx = s.promptIdx := by
  induction cmds generalizing s with
  | nil => simp [execCmds, finalState, h]
  | cons c rest ih =>
    cases c with
    | safeCmd eff =>
      simpa [execCmds] using ih { s with doc := s.doc.applyEffect eff } h
    | unsafeCmd eff =>
      have hw : (wrappedCall oracle eff s).1 =
          { s with safenow := true, doc := s.doc.applyEffect eff } := by
        simp [wrappedCall, h]
      have := ih (wrappedCall oracle eff s).1 (by rw [hw])
      simpa [execCmds, hw] using this
    | raiseCmd msg =>
      simp [execCmds, finalState, h]

/-- Every call of `compileLoop` strictly increases the attempt counter:
each iteration of the `while True` loop performs one `compileChecked`
call, so a final count of `0` means `compileChecked` was never called. -/
lemma compileLoop_attempts_lt (script : Bool → CompileOutcome) :
    ∀ (answers : List Bool) (u : Bool) (a : Nat),
      a < (compileLoop script answers u a).2 := by
  intro answers
  induction answers with
  | nil =>
    intro u a
    cases hs : script u <;> simp [compileLoop, hs]
  | cons b rest ih =>
    intro u a
    cases hs : script u <;> simp [compileLoop, hs]
    cases b with
    | false => simp
    | true =>
      simp only [if_pos]
      exact Nat.lt_trans (Nat.lt_succ_self a) (ih true (a + 1))

/-!  Claim theorems. -/

/-- C10: every command of `unsafe_commands` is bound as a wrapper that
discards the underlying command's return value: whatever the trust state
and the user's answer — skipped after a declined prompt, executed after
an accepted prompt, or executed in a trusted state — the wrapped call
returns `None`. -/
theorem claim10_wrapped_returns_none (oracle : Nat → Bool) (eff : Nat)
    (s : ExecState) :
    (wrappedCall oracle eff s).2 = none := by
  unfold wrappedCall
  split
  · rfl
  · split <;> rfl

/-- C5: when the trust flag is false and the user declines the
per-unsafe-command prompt, exactly that one invocation is skipped — it
is a no-op on the document and the underlying command is not called (the
wrapper returns `none` with the document unchanged) — and the rest of
the script still executes, exactly as it would from the post-prompt
state (only the prompt counter advanced, trust still false). -/
theorem claim5_decline_skips_single_call (oracle : Nat → Bool) (eff : Nat)
    (rest : List Cmd) (s : ExecState)
    (h1 : s.safenow = false) (h2 : oracle s.promptIdx = false) :
    (wrappedCall oracle eff s).2 = none ∧
    (wrappedCall oracle eff s).1.doc = s.doc ∧
    (wrappedCall oracle eff s).1.safenow = false ∧
    (wrappedCall oracle eff s).1.promptIdx = s.promptIdx + 1 ∧
    execCmds oracle (Cmd.unsafeCmd eff :: rest) s
      = execCmds oracle rest { s with promptIdx := s.promptIdx + 1 } := by
  have hw : wrappedCall oracle eff s =
      ({ s with promptIdx := s.promptIdx + 1 }, none) := by
    simp [wrappedCall, h1, h2]
  refine ⟨by rw [hw], by rw [hw], by rw [hw, h1], by rw [hw], ?_⟩
  simp [execCmds, hw]

/-- C5 witness: a concrete declined unsafe call is skipped while the
remaining commands execute. -/
theorem claim5_decline_skips_single_call_witness :
    (⟨defaultDocument, false, 0⟩ : ExecState).safenow = false ∧
    (fun _ => false : Nat → Bool) 0 = false ∧
    ((wrappedCall (fun _ => false) 5 ⟨defaultDocument, false, 0⟩).2 = none ∧
     (wrappedCall (fun _ => false) 5 ⟨defaultDocument, false, 0⟩).1.doc
       = (⟨defaultDocument, false, 0⟩ : ExecState).doc ∧
     (wrappedCall (fun _ => false) 5 ⟨defaultDocument, false, 0⟩).1.safenow = false ∧
     (wrappedCall (fun _ => false) 5 ⟨defaultDocument, false, 0⟩).1.promptIdx = 0 + 1 ∧
     execCmds (fun _ => false) (Cmd.unsafeCmd 5 :: [Cmd.safeCmd 3])
         ⟨defaultDocument, false, 0⟩
       = execCmds (fun _ => false) [Cmd.safeCmd 3]
           { (⟨defaultDocument, false, 0⟩ : ExecState) with promptIdx := 0 + 1 }) :=
  ⟨rfl, rfl,
    claim5_decline_skips_single_call (fun _ => false) 5 [Cmd.safeCmd 3]
      ⟨defaultDocument, false, 0⟩ rfl rfl⟩

/-- C1: once the user accepts a per-unsafe-command prompt, the trust
flag (`safenow[0]`) becomes true, and for any commands the script
subsequently invokes it stays true and no further unsafe-command prompt
is shown (the prompt index never moves again), whether the rest of the
script returns or raises. -/
theorem claim1_trust_sticky (oracle : Nat → Bool) (eff : Nat)
    (rest : List Cmd) (s : ExecState)
    (h1 : s.safenow = false) (h2 : oracle s.promptIdx = true) :
    (wrappedCall oracle eff s).1.safenow = true ∧
    (finalState (execCmds oracle rest (wrappedCall oracle eff s).1)).safenow
      = true ∧
    (finalState (execCmds oracle rest (wrappedCall oracle eff s).1)).promptIdx
      = (wrappedCall oracle eff s).1.promptIdx := by
  have hs : (wrappedCall oracle eff s).1.safenow = true := by
    simp [wrappedCall, h1, h2]
  obtain ⟨ha, hb⟩ := execCmds_trusted oracle rest (wrappedCall oracle eff s).1 hs
  exact ⟨hs, ha, hb⟩

/-- C1 witness: after one accepted prompt, a concrete remainder with
further unsafe commands runs with no additional prompts. -/
theorem claim1_trust_sticky_witness :
    (⟨defaultDocument, false, 0⟩ : ExecState).safenow = false ∧
    (fun _ => true : Nat → Bool) 0 = true ∧
    ((wrappedCall (fun _ => true) 5 ⟨defaultDocument, false, 0⟩).1.safenow = true ∧
     (finalState (execCmds (fun _ => true) [Cmd.unsafeCmd 7, Cmd.unsafeCmd 8]
         (wrappedCall (fun _ => true) 5 ⟨defaultDocument, false, 0⟩).1)).safenow
       = true ∧
     (finalState (execCmds (fun _ => true) [Cmd.unsafeCmd 7, Cmd.unsafeCmd 8]
         (wrappedCall (fun _ => true) 5 ⟨defaultDocument, false, 0⟩).1)).promptIdx
       = (wrappedCall (fun _ => true) 5 ⟨defaultDocument, false, 0⟩).1.promptIdx) :=
  ⟨rfl, rfl,
    claim1_trust_sticky (fun _ => true) 5 [Cmd.unsafeCmd 7, Cmd.unsafeCmd 8]
      ⟨defaultDocument, false, 0⟩ rfl rfl⟩

/-- C4: on every exit path of `openFileInWindow` — read failure, compile
error, security-prompt decline, runtime exception, or success —
`sys.stdout` and `sys.stderr` equal their pre-load values when the call
returns; no path leaves the streams redirected. -/
theorem claim4_streams_restored (inp : LoadInput) (g : GlobalState) :
    (load inp g).stdoutV = g.stdoutV ∧ (load inp g).stderrV = g.stderrV := by
  unfold load
  split
  · split
    · exact ⟨rfl, rfl⟩
    · exact ⟨rfl, rfl⟩
    · exact ⟨rfl, rfl⟩
    · split
      · exact ⟨rfl, rfl⟩
      · exact ⟨rfl, rfl⟩
  · exact ⟨rfl, rfl⟩

/-- C2: when compilation raises a security violation and the user
declines the whole-script prompt, `openFileInWindow` returns without
executing anything: the document is exactly its pre-load value (no wipe,
no default-document setup), no error is reported, and no per-command
prompt was shown. -/
theorem claim2_decline_leaves_document (inp : LoadInput) (g : GlobalState)
    (h1 : inp.fileReadOk = true)
    (h2 : (compileLoop inp.script inp.wholeAnswers inp.globalUnsafeMode 0).1
      = .declined) :
    (load inp g).result = .declinedAbort ∧
    (load inp g).doc = g.doc ∧
    (load inp g).setupDefaultCalled = false ∧
    (load inp g).reportedErrors = [] ∧
    (load inp g).cmdPromptsShown = 0 := by
  unfold load
  rcases hc : compileLoop inp.script inp.wholeAnswers inp.globalUnsafeMode 0
    with ⟨r, n⟩
  rw [hc] at h2
  simp only at h2
  subst h2
  simp [h1, hc]

/-- C2 witness: a concrete declined whole-script prompt leaves a
non-empty document untouched. -/
theorem claim2_decline_leaves_document_witness :
    (⟨true, fun _ => .securityViolation, false, [false], fun _ => true⟩
        : LoadInput).fileReadOk = true ∧
    (compileLoop (fun _ => .securityViolation) [false] false 0).1
      = .declined ∧
    ((load ⟨true, fun _ => .securityViolation, false, [false], fun _ => true⟩
        ⟨⟨[9], false, true, [4]⟩, 10, 11, 20, 21⟩).result = .declinedAbort ∧
     (load ⟨true, fun _ => .securityViolation, false, [false], fun _ => true⟩
        ⟨⟨[9], false, true, [4]⟩, 10, 11, 20, 21⟩).doc = ⟨[9], false, true, [4]⟩ ∧
     (load ⟨true, fun _ => .securityViolation, false, [false], fun _ => true⟩
        ⟨⟨[9], false, true, [4]⟩, 10, 11, 20, 21⟩).setupDefaultCalled = false ∧
     (load ⟨true, fun _ => .securityViolation, false, [false], fun _ => true⟩
        ⟨⟨[9], false, true, [4]⟩, 10, 11, 20, 21⟩).reportedErrors = [] ∧
     (load ⟨true, fun _ => .securityViolation, false, [false], fun _ => true⟩
        ⟨⟨[9], false, true, [4]⟩, 10, 11, 20, 21⟩).cmdPromptsShown = 0) :=
  ⟨rfl, rfl,
    claim2_decline_leaves_document
      ⟨true, fun _ => .securityViolation, false, [false], fun _ => true⟩
      ⟨⟨[9], false, true, [4]⟩, 10, 11, 20, 21⟩ rfl rfl⟩

/-- C3 counterexample: the claim says that declining the whole-file
security prompt resets the document to the default empty state with the
default-document setup performed before returning.  On a concrete
declined load, the code just returns: `setupDefaultDoc` is not called
and the document keeps its pre-load contents, which differ from the
default empty state. -/
theorem claim3_counterexample :
    (load ⟨true, fun _ => .securityViolation, false, [false], fun _ => true⟩
        ⟨⟨[7], false, true, [3]⟩, 10, 11, 20, 21⟩).result = .declinedAbort ∧
    (load ⟨true, fun _ => .securityViolation, false, [false], fun _ => true⟩
        ⟨⟨[7], false, true, [3]⟩, 10, 11, 20, 21⟩).setupDefaultCalled = false ∧
    (load ⟨true, fun _ => .securityViolation, false, [false], fun _ => true⟩
        ⟨⟨[7], false, true, [3]⟩, 10, 11, 20, 21⟩).doc ≠ defaultDocument := by
  refine ⟨rfl, rfl, ?_⟩
  decide

/-- C3 amended: whenever the user declines the whole-file
security-violation prompt, the load aborts, but the document is left
unchanged and the default-document setup is not performed (the
`setupDefaultDoc` reset happens only on the read-failure path, not on
the decline path). -/
theorem claim3_amended_decline_no_reset (inp : LoadInput) (g : GlobalState)
    (h1 : inp.fileReadOk = true)
    (h2 : (compileLoop inp.script inp.wholeAnswers inp.globalUnsafeMode 0).1
      = .declined) :
    (load inp g).result = .declinedAbort ∧
    (load inp g).setupDefaultCalled = false ∧
    (load inp g).doc = g.doc := by
  unfold load
  rcases hc : compileLoop inp.script inp.wholeAnswers inp.globalUnsafeMode 0
    with ⟨r, n⟩
  rw [hc] at h2
  simp only at h2
  subst h2
  simp [h1, hc]

/-- C3 amended witness: a concrete declined load aborts with no
default-document setup and an unchanged document. -/
theorem claim3_amended_decline_no_reset_witness :
    (⟨true, fun _ => .securityViolation, true, [false], fun _ => false⟩
        : LoadInput).fileReadOk = true ∧
    (compileLoop (fun _ => .securityViolation) [false] true 0).1 = .declined ∧
    ((load ⟨true, fun _ => .securityViolation, true, [false], fun _ => false⟩
        ⟨⟨[2, 4], true, false, [1]⟩, 30, 31, 40, 41⟩).result = .declinedAbort ∧
     (load ⟨true, fun _ => .securityViolation, true, [false], fun _ => false⟩
        ⟨⟨[2, 4], true, false, [1]⟩, 30, 31, 40, 41⟩).setupDefaultCalled = false ∧
     (load ⟨true, fun _ => .securityViolation, true, [false], fun _ => false⟩
        ⟨⟨[2, 4], true, false, [1]⟩, 30, 31, 40, 41⟩).doc
       = ⟨[2, 4], true, false, [1]⟩) :=
  ⟨rfl, rfl,
    claim3_amended_decline_no_reset
      ⟨true, fun _ => .securityViolation, true, [false], fun _ => false⟩
      ⟨⟨[2, 4], true, false, [1]⟩, 30, 31, 40, 41⟩ rfl rfl⟩

/-- C8: when reading the script file fails, `openFileInWindow` shows the
error message box and returns with the document in its default empty
state (`setupDefaultDoc` performed) — and `compileChecked` is never
called: the attempt count is `0`, while every `compileLoop` entry
strictly increases it, so a count of `0` means no compile call was
made. -/
theorem claim8_read_error_short_circuits (inp : LoadInput) (g : GlobalState)
    (h : inp.fileReadOk = false) :
    (load inp g).result = .readError ∧
    (load inp g).readErrorShown = true ∧
    (load inp g).doc = defaultDocument ∧
    (load inp g).setupDefaultCalled = true ∧
    (load inp g).compileAttempts = 0 ∧
    (∀ (answers : List Bool) (u : Bool) (a : Nat),
      a < (compileLoop inp.script answers u a).2) := by
  refine ⟨?_, ?_, ?_, ?_, ?_, compileLoop_attempts_lt inp.script⟩ <;>
    simp [load, h]

/-- C8 witness: a concrete failed read reports, resets to the default
document, and performs no compilation. -/
theorem claim8_read_error_short_circuits_witness :
    (⟨false, fun _ => .ok [Cmd.safeCmd 1], false, [], fun _ => true⟩
        : LoadInput).fileReadOk = false ∧
    ((load ⟨false, fun _ => .ok [Cmd.safeCmd 1], false, [], fun _ => true⟩
        ⟨⟨[9], false, true, [4]⟩, 10, 11, 20, 21⟩).result = .readError ∧
     (load ⟨false, fun _ => .ok [Cmd.safeCmd 1], false, [], fun _ => true⟩
        ⟨⟨[9], false, true, [4]⟩, 10, 11, 20, 21⟩).readErrorShown = true ∧
     (load ⟨false, fun _ => .ok [Cmd.safeCmd 1], false, [], fun _ => true⟩
        ⟨⟨[9], false, true, [4]⟩, 10, 11, 20, 21⟩).doc = defaultDocument ∧
     (load ⟨false, fun _ => .ok [Cmd.safeCmd 1], false, [], fun _ => true⟩
        ⟨⟨[9], false, true, [4]⟩, 10, 11, 20, 21⟩).setupDefaultCalled = true ∧
     (load ⟨false, fun _ => .ok [Cmd.safeCmd 1], false, [], fun _ => true⟩
        ⟨⟨[9], false, true, [4]⟩, 10, 11, 20, 21⟩).compileAttempts = 0 ∧
     (∀ (answers : List Bool) (u : Bool) (a : Nat),
       a < (compileLoop (fun _ => .ok [Cmd.safeCmd 1]) answers u a).2)) :=
  ⟨rfl,
    claim8_read_error_short_circuits
      ⟨false, fun _ => .ok [Cmd.safeCmd 1], false, [], fun _ => true⟩
      ⟨⟨[9], false, true, [4]⟩, 10, 11, 20, 21⟩ rfl⟩

/-- C6: after a load whose script executes to completion without
raising, the streams are restored, change notifications are re-enabled,
the document reports unmodified and its undo history is empty. -/
theorem claim6_success_postconditions (inp : LoadInput) (g : GlobalState)
    (h : (load inp g).result = .success) :
    (load inp g).stdoutV = g.stdoutV ∧
    (load inp g).stderrV = g.stderrV ∧
    (load inp g).doc.updatesSuspended = false ∧
    (load inp g).doc.modified = false ∧
    (load inp g).doc.history = [] := by
  cases hf : inp.fileReadOk with
  | false => simp [load, hf] at h
  | true =>
    rcases hc : compileLoop inp.script inp.wholeAnswers inp.globalUnsafeMode 0
      with ⟨r, n⟩
    cases r with
    | compiled cmds relaxed =>
      rcases he : execCmds inp.cmdOracle cmds
          { doc := (g.doc.wipe).suspendUpdates
            safenow := relaxed
            promptIdx := 0 } with p | st
      · obtain ⟨msg, st⟩ := p
        simp [load, hf, hc, he] at h
      · simp [load, hf, hc, he, Document.enableUpdates, Document.setModified,
          Document.clearHistory]
    | declined => simp [load, hf, hc] at h
    | failed msg => simp [load, hf, hc] at h
    | blocked => simp [load, hf, hc] at h

/-- C6 witness: a concrete load that runs to completion satisfies all
success postconditions. -/
theorem claim6_success_postconditions_witness :
    (load ⟨true, fun _ => .ok [Cmd.safeCmd 1, Cmd.unsafeCmd 2], false, []
        , fun _ => true⟩
      ⟨⟨[9], false, true, [4]⟩, 10, 11, 20, 21⟩).result = .success ∧
    ((load ⟨true, fun _ => .ok [Cmd.safeCmd 1, Cmd.unsafeCmd 2], false, []
        , fun _ => true⟩
       ⟨⟨[9], false, true, [4]⟩, 10, 11, 20, 21⟩).stdoutV = 10 ∧
     (load ⟨true, fun _ => .ok [Cmd.safeCmd 1, Cmd.unsafeCmd 2], false, []
        , fun _ => true⟩
       ⟨⟨[9], false, true, [4]⟩, 10, 11, 20, 21⟩).stderrV = 11 ∧
     (load ⟨true, fun _ => .ok [Cmd.safeCmd 1, Cmd.unsafeCmd 2], false, []
        , fun _ => true⟩
       ⟨⟨[9], false, true, [4]⟩, 10, 11, 20, 21⟩).doc.updatesSuspended = false ∧
     (load ⟨true, fun _ => .ok [Cmd.safeCmd 1, Cmd.unsafeCmd 2], false, []
        , fun _ => true⟩
       ⟨⟨[9], false, true, [4]⟩, 10, 11, 20, 21⟩).doc.modified = false ∧
     (load ⟨true, fun _ => .ok [Cmd.safeCmd 1, Cmd.unsafeCmd 2], false, []
        , fun _ => true⟩
       ⟨⟨[9], false, true, [4]⟩, 10, 11, 20, 21⟩).doc.history = []) :=
  ⟨by decide,
    claim6_success_postconditions
      ⟨true, fun _ => .ok [Cmd.safeCmd 1, Cmd.unsafeCmd 2], false, []
        , fun _ => true⟩
      ⟨⟨[9], false, true, [4]⟩, 10, 11, 20, 21⟩ (by decide)⟩

/-- C7: when executing the compiled script raises, the load restores the
streams, re-enables change notifications, reports the exception via the
error dialog, and leaves the document in the partial state the script
produced — same contents, same modified flag, same history: no rollback,
no unmodified marking, no history clearing. -/
theorem claim7_exec_exception_no_rollback (inp : LoadInput) (g : GlobalState)
    (cmds : List Cmd) (relaxed : Bool) (n msg : Nat) (st : ExecState)
    (h1 : inp.fileReadOk = true)
    (h2 : compileLoop inp.script inp.wholeAnswers inp.globalUnsafeMode 0
      = (.compiled cmds relaxed, n))
    (h3 : execCmds inp.cmdOracle cmds
        { doc := (g.doc.wipe).suspendUpdates
          safenow := relaxed
          promptIdx := 0 }
      = .error (msg, st)) :
    (load inp g).result = .execError msg ∧
    (load inp g).stdoutV = g.stdoutV ∧
    (load inp g).stderrV = g.stderrV ∧
    (load inp g).reportedErrors = [msg] ∧
    (load inp g).doc = st.doc.enableUpdates ∧
    (load inp g).doc.updatesSuspended = false ∧
    (load inp g).doc.data = st.doc.data ∧
    (load inp g).doc.modified = st.doc.modified ∧
    (load inp g).doc.history = st.doc.history := by
  simp [load, h1, h2, h3, Document.enableUpdates]

/-- C7 witness: a concrete script that mutates the document and then
raises leaves exactly the partial mutation behind. -/
theorem claim7_exec_exception_no_rollback_witness :
    (⟨true, fun _ => .ok [Cmd.safeCmd 1, Cmd.raiseCmd 9], false, []
        , fun _ => true⟩ : LoadInput).fileReadOk = true ∧
    compileLoop (fun _ => .ok [Cmd.safeCmd 1, Cmd.raiseCmd 9]) [] false 0
      = (.compiled [Cmd.safeCmd 1, Cmd.raiseCmd 9] false, 1) ∧
    execCmds (fun _ => true) [Cmd.safeCmd 1, Cmd.raiseCmd 9]
        { doc := (Document.wipe ⟨[9], false, true, [4]⟩).suspendUpdates
          safenow := false
          promptIdx := 0 }
      = .error (9, ⟨⟨[1], true, true, [4, 1]⟩, false, 0⟩) ∧
    ((load ⟨true, fun _ => .ok [Cmd.safeCmd 1, Cmd.raiseCmd 9], false, []
        , fun _ => true⟩
       ⟨⟨[9], false, true, [4]⟩, 10, 11, 20, 21⟩).result = .execError 9 ∧
     (load ⟨true, fun _ => .ok [Cmd.safeCmd 1, Cmd.raiseCmd 9], false, []
        , fun _ => true⟩
       ⟨⟨[9], false, true, [4]⟩, 10, 11, 20, 21⟩).doc
       = Document.enableUpdates ⟨[1], true, true, [4, 1]⟩) := by
  refine ⟨rfl, rfl, rfl, ?_, ?_⟩
  · exact (claim7_exec_exception_no_rollback
      ⟨true, fun _ => .ok [Cmd.safeCmd 1, Cmd.raiseCmd 9], false, []
        , fun _ => true⟩
      ⟨⟨[9], false, true, [4]⟩, 10, 11, 20, 21⟩
      [Cmd.safeCmd 1, Cmd.raiseCmd 9] false 1 9
      ⟨⟨[1], true, true, [4, 1]⟩, false, 0⟩
      rfl rfl rfl).1
  · exact (claim7_exec_exception_no_rollback
      ⟨true, fun _ => .ok [Cmd.safeCmd 1, Cmd.raiseCmd 9], false, []
        , fun _ => true⟩
      ⟨⟨[9], false, true, [4]⟩, 10, 11, 20, 21⟩
      [Cmd.safeCmd 1, Cmd.raiseCmd 9] false 1 9
      ⟨⟨[1], true, true, [4, 1]⟩, false, 0⟩
      rfl rfl rfl).2.2.2.2.1

/-- C9: when the whole-file security prompt is accepted, compilation is
retried with `ignoresecurity = true` (a second and final `compileChecked`
call, succeeding with the relaxed flag), and execution starts with the
trust flag already true, so no per-unsafe-command prompt is ever shown
during that load. -/
theorem claim9_accepted_violation_trusts_execution (inp : LoadInput)
    (g : GlobalState) (rest : List Bool) (cmds : List Cmd)
    (h0 : inp.globalUnsafeMode = false)
    (h1 : inp.fileReadOk = true)
    (h2 : inp.script false = .securityViolation)
    (h3 : inp.wholeAnswers = true :: rest)
    (h4 : inp.script true = .ok cmds) :
    compileLoop inp.script inp.wholeAnswers inp.globalUnsafeMode 0
      = (.compiled cmds true, 2) ∧
    (load inp g).cmdPromptsShown = 0 := by
  have hc : compileLoop inp.script inp.wholeAnswers inp.globalUnsafeMode 0
      = (.compiled cmds true, 2) := by
    rw [h0, h3]
    cases rest <;> simp [compileLoop, h2, h4]
  refine ⟨hc, ?_⟩
  have hs : ({ doc := (g.doc.wipe).suspendUpdates
               safenow := true
               promptIdx := 0 } : ExecState).safenow = true := rfl
  rcases he : execCmds inp.cmdOracle cmds
      { doc := (g.doc.wipe).suspendUpdates
        safenow := true
        promptIdx := 0 } with p | st
  · obtain ⟨msg, st⟩ := p
    have ht := execCmds_trusted inp.cmdOracle cmds _ hs
    rw [he] at ht
    simp [finalState] at ht
    simp [load, h1, hc, he, ht.2]
  · have ht := execCmds_trusted inp.cmdOracle cmds _ hs
    rw [he] at ht
    simp [finalState] at ht
    simp [load, h1, hc, he, ht.2]

/-- C9 witness: a concrete accepted whole-file prompt leads to a relaxed
recompile and an execution with zero per-command prompts, even though
the script invokes an unsafe command and the per-command oracle would
decline. -/
theorem claim9_accepted_violation_trusts_execution_witness :
    (⟨true, fun b => if b then .ok [Cmd.unsafeCmd 1] else .securityViolation
        , false, [true], fun _ => false⟩ : LoadInput).globalUnsafeMode
      = false ∧
    (⟨true, fun b => if b then .ok [Cmd.unsafeCmd 1] else .securityViolation
        , false, [true], fun _ => false⟩ : LoadInput).fileReadOk = true ∧
    (fun b => if b then .ok [Cmd.unsafeCmd 1] else .securityViolation
        : Bool → CompileOutcome) false = .securityViolation ∧
    (fun b => if b then .ok [Cmd.unsafeCmd 1] else .securityViolation
        : Bool → CompileOutcome) true = .ok [Cmd.unsafeCmd 1] ∧
    (compileLoop
        (fun b => if b then .ok [Cmd.unsafeCmd 1] else .securityViolation)
        [true] false 0
      = (.compiled [Cmd.unsafeCmd 1] true, 2) ∧
     (load ⟨true
        , fun b => if b then .ok [Cmd.unsafeCmd 1] else .securityViolation
        , false, [true], fun _ => false⟩
       ⟨⟨[9], false, true, [4]⟩, 10, 11, 20, 21⟩).cmdPromptsShown = 0) :=
  ⟨rfl, rfl, rfl, rfl,
    claim9_accepted_violation_trusts_execution
      ⟨true, fun b => if b then .ok [Cmd.unsafeCmd 1] else .securityViolation
        , false, [true], fun _ => false⟩
      ⟨⟨[9], false, true, [4]⟩, 10, 11, 20, 21⟩ [] [Cmd.unsafeCmd 1]
      rfl rfl rfl rfl rfl⟩

end Veusz
